import Mathlib

/-!
# Verification of the crypto-price-arbitrage-finder core (`src/arbitrage.js`)

Shallow embedding of the quote-acquisition and spread-computation engine.
JavaScript numbers are modelled as rationals (`ℚ`); a value that is
`null`/`undefined`/`NaN`/non-numeric is modelled as `none` of an `Option`.
Network effects (provider HTTP responses, the CoinGecko price lookup) are
modelled as explicit oracle parameters: an adapter's response for attempt
`k` is the oracle's value at `k`, so the retry loop and the fan-out are
deterministic functions of those oracles, exactly mirroring the data flow
of the source.  `BigInt` raw amounts are modelled as `ℤ`.
-/

namespace Arb

/-- JS truthiness of an optional number: `null`/`undefined`/absent and `0`
are falsy, any other (finite) number is truthy. -/
def qTruthy : Option ℚ → Bool
  | none => false
  | some x => x != 0

/-- JS `a || b` for an optional number `a` with a number default `b`. -/
def jsOrQ : Option ℚ → ℚ → ℚ
  | none, b => b
  | some x, b => if x = 0 then b else x

/-- JS `a || b` for an optional string `a` (empty string is falsy). -/
def jsOrStr : Option String → String → String
  | none, b => b
  | some s, b => if s = "" then b else s

/-- A configured token pair (`config/pairs.config.json` entry).
Optional numeric fields are `Option ℚ`; `none` means the key is absent. -/
structure Pair where
  name : String
  fromSymbol : String := ""
  toSymbol : String := ""
  fromAddress : String := ""
  toAddress : String := ""
  fromDecimals : ℕ := 18
  toDecimals : ℕ := 18
  coingeckoId : Option String := none
  sampleSellAmount : Option ℚ := none
  usdSellTarget : Option ℚ := none
  minBuyAmount : Option ℚ := none
  deriving DecidableEq, Repr

/-- A configured chain: id, display name, enabled aggregator ids in
configuration order, and the default USD sell size. -/
structure Chain where
  id : ℕ
  name : String := ""
  aggregators : List String := []
  defaultUsdSell : Option ℚ := none
  deriving DecidableEq, Repr

/-- A JS `Error` as the code inspects it: `message`, and the optional
axios `response` fields `response.status`, `response.data.description`,
`response.data.message`.  `none` models an absent field. -/
structure JsError where
  message : String := ""
  responseStatus : Option ℕ := none
  responseDescription : Option String := none
  responseDataMessage : Option String := none
  deriving DecidableEq, Repr

/-- The normalized shape every adapter returns:
`{ source, price, buyAmount, sellAmount, raw }` (the untouched `raw`
payload is omitted: no downstream computation reads it). -/
structure RawQuote where
  source : String
  price : Option ℚ := none
  buyAmount : Option ℚ := none
  sellAmount : Option ℚ := none
  deriving DecidableEq, Repr

/-- A Quote as assembled by `collectQuotes`: either a normalized provider
result (error absent) or a `{source, error}` failure record. -/
structure Quote where
  source : String
  price : Option ℚ := none
  buyAmount : Option ℚ := none
  sellAmount : Option ℚ := none
  buyAmountHuman : Option ℚ := none
  sellAmountHuman : Option ℚ := none
  error : Option String := none
  deriving DecidableEq, Repr

/-- `calculateSellAmount`'s result: raw integer amount (a `BigInt`,
serialized as a string in JS) and the human token amount. -/
structure SellSizing where
  raw : ℤ
  human : ℚ
  deriving DecidableEq, Repr

/-- `computeSpread`'s non-null result. `best`/`worst` use optional
chaining (`best?.source`) in the source, hence `Option String`. -/
structure SpreadResult where
  spread_percent : ℚ
  best : Option String
  worst : Option String
  deriving DecidableEq, Repr

/-- One pair's full evaluation as assembled by `analyzePair`.  Fields
that the source leaves `undefined` are `none`. -/
structure PairResult where
  pair : String
  chainId : ℕ
  chain : String
  sellAmount : ℚ
  sellToken : String
  buyToken : String
  quotes : List Quote
  minBuyAmount : Option ℚ
  liquidity_flag : Option String := none
  spread_percent : Option ℚ := none
  best : Option String := none
  worst : Option String := none
  deriving DecidableEq, Repr

/-- `OX_HOSTS`: the chain ids for which the 0x adapter has an endpoint. -/
def OX_HOSTS : List ℕ := [1, 56, 137]

/-- `COW_HOSTS`: the chain ids for which the CowSwap adapter has an endpoint. -/
def COW_HOSTS : List ℕ := [1]

/-- `MAX_RETRIES = 2`. -/
def MAX_RETRIES : ℕ := 2

/-- `RETRY_DELAY_MS = 500`. -/
def RETRY_DELAY_MS : ℕ := 500

/-- JS truthiness of an optional string: absent and `""` are falsy. -/
def strTruthy : Option String → Bool
  | none => false
  | some s => s != ""

/-- The `reason` of `decorateError`:
`err.response?.data?.description || err.response?.data?.message ||
err.message || String(err)` (for an `Error` with empty message,
`String(err)` prints `"Error"`). -/
def errReason (err : JsError) : String :=
  jsOrStr err.responseDescription
    (jsOrStr err.responseDataMessage
      (if err.message = "" then "Error" else err.message))

/-- The `status` of `decorateError`: `` ` [${code}]` `` when
`err.response?.status` is truthy, else `""`. -/
def statusSuffix (err : JsError) : String :=
  match err.responseStatus with
  | none => ""
  | some n => if n = 0 then "" else " [" ++ toString n ++ "]"

/-- `decorateError(err, label)`: builds the message
`` `${label || 'request'} failed${status}: ${reason}` ``. -/
def decorateError (err : JsError) (label : String) : JsError :=
  { message := (if label = "" then "request" else label) ++ " failed"
      ++ statusSuffix err ++ ": " ++ errReason err }

/-- The loop body of `withRetry`: `fn` gives the outcome of each attempt
(attempt counter starting at `attempt`, with `remaining` retries still
allowed).  Returns the final outcome, the number of calls made from here,
and the backoff sleeps performed (in ms), in order. -/
def withRetryGo (fn : ℕ → Except JsError α) (label : String) :
    ℕ → ℕ → Except JsError α × ℕ × List ℕ
  | attempt, remaining =>
    match fn attempt with
    | .ok v => (.ok v, 1, [])
    | .error e =>
      match remaining with
      | 0 => (.error (decorateError e label), 1, [])
      | r + 1 =>
        let rest := withRetryGo fn label (attempt + 1) r
        (rest.1, rest.2.1 + 1, RETRY_DELAY_MS * (attempt + 1) :: rest.2.2)

/-- `withRetry(fn, label)`: run `fn`, retrying on any failure up to
`MAX_RETRIES` times with a sleep of `RETRY_DELAY_MS × attempt` before
retry number `attempt`; on exhaustion the last error is decorated with
the label.  The trace records (result, total attempts, sleeps). -/
def withRetry (fn : ℕ → Except JsError α) (label : String) :
    Except JsError α × ℕ × List ℕ :=
  withRetryGo fn label 0 MAX_RETRIES

/-- `normalizeAmount(raw, decimals)`: `null`/`undefined`/non-numeric raw
amounts give `null`; otherwise divide by `10^decimals`. -/
def normalizeAmount (raw : Option ℚ) (decimals : ℕ) : Option ℚ :=
  match raw with
  | none => none
  | some num => some (num / 10 ^ decimals)

/-- The fields of the 0x `/swap/v1/price` response that `quote0x` reads. -/
structure OxData where
  price : Option ℚ := none
  buyAmount : Option ℚ := none
  sellAmount : Option ℚ := none
  deriving DecidableEq, Repr

/-- The fields of the 1inch `/quote` response that `quote1inch` reads
(amounts modelled numerically; absent/non-numeric is `none`). -/
structure OneInchData where
  toTokenAmount : Option ℚ := none
  fromTokenAmount : Option ℚ := none
  deriving DecidableEq, Repr

/-- The routing sub-object of a Paraswap `/prices` response. -/
structure ParaswapRoute where
  destAmount : Option ℚ := none
  srcAmount : Option ℚ := none
  deriving DecidableEq, Repr

/-- A Paraswap `/prices` response: amounts may be nested under
`priceRoute` or flat at top level. -/
structure ParaswapData where
  priceRoute : Option ParaswapRoute := none
  destAmount : Option ℚ := none
  srcAmount : Option ℚ := none
  deriving DecidableEq, Repr

/-- The order sub-object of a CowSwap `/api/v1/quote` response. -/
structure CowQuoteData where
  buyAmount : Option ℚ := none
  sellAmount : Option ℚ := none
  deriving DecidableEq, Repr

/-- A CowSwap response: the quote may be nested under `quote` or flat. -/
structure CowData where
  quote : Option CowQuoteData := none
  buyAmount : Option ℚ := none
  sellAmount : Option ℚ := none
  deriving DecidableEq, Repr

/-- `quote0x(chainId, pair, sellAmount)`: throws
`'0x not supported for chain'` when `OX_HOSTS[chainId]` is absent —
before any network access; otherwise reduces the HTTP outcome `resp`
(the oracle for this request) to `{source: '0x', price, buyAmount,
sellAmount}`. -/
def quote0x (chainId : ℕ) (resp : Except JsError OxData) : Except JsError RawQuote :=
  if chainId ∈ OX_HOSTS then
    resp.map (fun data =>
      { source := "0x", price := data.price,
        buyAmount := data.buyAmount, sellAmount := data.sellAmount })
  else .error { message := "0x not supported for chain" }

/-- `quote1inch`: price is derived as `toTokenAmount / fromTokenAmount`
when both amount fields are truthy, else `null`. -/
def quote1inch (_chainId : ℕ) (resp : Except JsError OneInchData) : Except JsError RawQuote :=
  resp.map (fun data =>
    { source := "1inch",
      price :=
        if qTruthy data.toTokenAmount ∧ qTruthy data.fromTokenAmount then
          some (data.toTokenAmount.getD 0 / data.fromTokenAmount.getD 0)
        else none,
      buyAmount := data.toTokenAmount, sellAmount := data.fromTokenAmount })

/-- `quoteParaswap`: reads the route from `data.priceRoute || data`
(nested shape preferred, flat accepted), price
`destAmount / srcAmount` when both are truthy. -/
def quoteParaswap (_chainId : ℕ) (resp : Except JsError ParaswapData) : Except JsError RawQuote :=
  resp.map (fun data =>
    let route : ParaswapRoute :=
      match data.priceRoute with
      | some r => r
      | none => { destAmount := data.destAmount, srcAmount := data.srcAmount }
    { source := "paraswap",
      price :=
        if qTruthy route.destAmount ∧ qTruthy route.srcAmount then
          some (route.destAmount.getD 0 / route.srcAmount.getD 0)
        else none,
      buyAmount := route.destAmount, sellAmount := route.srcAmount })

/-- `quoteCow`: throws `'CowSwap not supported for chain'` when
`COW_HOSTS[chainId]` is absent — before any network access; otherwise
reads the quote from `data.quote || data` and derives the price as
`buyAmount / sellAmount` when both are truthy. -/
def quoteCow (chainId : ℕ) (resp : Except JsError CowData) : Except JsError RawQuote :=
  if chainId ∈ COW_HOSTS then
    resp.map (fun data =>
      let q : CowQuoteData :=
        match data.quote with
        | some r => r
        | none => { buyAmount := data.buyAmount, sellAmount := data.sellAmount }
      { source := "cow",
        price :=
          if qTruthy q.buyAmount ∧ qTruthy q.sellAmount then
            some (q.buyAmount.getD 0 / q.sellAmount.getD 0)
          else none,
        buyAmount := q.buyAmount, sellAmount := q.sellAmount })
  else .error { message := "CowSwap not supported for chain" }

/-- The network's behaviour for one pair's scan: for each provider, the
HTTP outcome of that provider's request on attempt `k`.  Modelling the
response per attempt lets the retry loop observe genuinely transient
failures. -/
structure Network where
  ox : ℕ → Except JsError OxData
  oneinch : ℕ → Except JsError OneInchData
  paraswap : ℕ → Except JsError ParaswapData
  cowswap : ℕ → Except JsError CowData

/-- The dispatch closure `fn` built inside `collectQuotes` for one
aggregator id: recognized ids call their adapter, any other id throws
`` `Unknown aggregator ${agg}` ``. -/
def providerFn (chain : Chain) (net : Network) (agg : String) : ℕ → Except JsError RawQuote :=
  fun k =>
    if agg = "0x" then quote0x chain.id (net.ox k)
    else if agg = "1inch" then quote1inch chain.id (net.oneinch k)
    else if agg = "paraswap" then quoteParaswap chain.id (net.paraswap k)
    else if agg = "cow" then quoteCow chain.id (net.cowswap k)
    else .error { message := "Unknown aggregator " ++ agg }

/-- The per-task label `` `${agg} ${pair.name}` ``. -/
def aggLabel (agg : String) (pair : Pair) : String := agg ++ " " ++ pair.name

/-- The outcome of one aggregator task after the retry wrapper. -/
def providerResult (chain : Chain) (pair : Pair) (net : Network) (agg : String) :
    Except JsError RawQuote :=
  (withRetry (providerFn chain net agg) (aggLabel agg pair)).1

/-- `normalizeQuote(res, pair)`: spreads `res` and adds the
decimal-normalized human amounts. -/
def normalizeQuote (res : RawQuote) (pair : Pair) : Quote :=
  { source := res.source, price := res.price, buyAmount := res.buyAmount,
    sellAmount := res.sellAmount,
    buyAmountHuman := normalizeAmount res.buyAmount pair.toDecimals,
    sellAmountHuman := normalizeAmount res.sellAmount pair.fromDecimals }

/-- One aggregator task of `collectQuotes`:
`withRetry(fn, label).then(res => normalizeQuote(res, pair)).catch(err =>
({source: agg, error: err.message}))`. -/
def providerQuote (chain : Chain) (pair : Pair) (net : Network) (agg : String) : Quote :=
  match providerResult chain pair net agg with
  | .ok res => normalizeQuote res pair
  | .error err => { source := agg, error := some err.message }

/-- `collectQuotes(chain, pair, sellAmount)`: one task per configured
aggregator; `Promise.all` preserves configuration order, so the result
is the ordered list of per-aggregator quotes. -/
def collectQuotes (chain : Chain) (pair : Pair) (net : Network) : List Quote :=
  chain.aggregators.map (providerQuote chain pair net)

/-- The filter predicate of `computeSpread`:
`q.price && isFinite(q.price)` — the price is present (not
`null`/`NaN`/`±Infinity`, which have no `ℚ` denotation) and nonzero. -/
def isValidQuote (q : Quote) : Bool :=
  match q.price with
  | none => false
  | some p => p != 0

/-- The `valid` list of `computeSpread`. -/
def validQuotes (quotes : List Quote) : List Quote := quotes.filter isValidQuote

/-- The `prices` list of `computeSpread`: the prices of the quotes that
pass the validity filter, in input order. -/
def validPrices (quotes : List Quote) : List ℚ :=
  (validQuotes quotes).filterMap (fun q => q.price)

/-- `computeSpread(quotes)`: `null` when fewer than 2 quotes pass the
validity filter; otherwise spread `(max − min)/min × 100` over the valid
prices with `best`/`worst` the first valid quote carrying the extreme
price. -/
def computeSpread (quotes : List Quote) : Option SpreadResult :=
  let valid := validQuotes quotes
  if valid.length < 2 then none
  else
    let prices := validPrices quotes
    match prices.max?, prices.min? with
    | some maxP, some minP =>
      some { spread_percent := (maxP - minP) / minP * 100,
             best := (valid.find? (fun q => q.price == some maxP)).map (fun q => q.source),
             worst := (valid.find? (fun q => q.price == some minP)).map (fun q => q.source) }
    | _, _ => none

/-- `Math.max(...quotes.map(q => q.buyAmountHuman || 0))`, and `0` for an
empty quote list. -/
def bestBuy (quotes : List Quote) : ℚ :=
  match (quotes.map (fun q => jsOrQ q.buyAmountHuman 0)).max? with
  | some m => m
  | none => 0

/-- The liquidity gate of `analyzePair`: when `pair.minBuyAmount` is
truthy and the best buy across all quotes is below it, a non-null flag
message (the exact `toFixed(4)` rendering is immaterial downstream and
modelled by `toString`). -/
def liquidityFlagFor (pair : Pair) (quotes : List Quote) : Option String :=
  if qTruthy pair.minBuyAmount ∧ bestBuy quotes < pair.minBuyAmount.getD 0 then
    some ("best buy " ++ toString (bestBuy quotes) ++ " < min "
      ++ toString (pair.minBuyAmount.getD 0))
  else none

/-- The pure tail of `analyzePair`: assemble the `PairResult` from the
collected quotes, attaching `spread_percent`/`best`/`worst` only when
`computeSpread` returned non-null and no liquidity flag is set.  (The
source rounds `sellAmount` to 6 decimals for display; no claim reads it,
so the human amount is stored unrounded.) -/
def analyzePairResult (chain : Chain) (pair : Pair) (sellHuman : ℚ)
    (quotes : List Quote) : PairResult :=
  let spread := computeSpread quotes
  let flag := liquidityFlagFor pair quotes
  let base : PairResult :=
    { pair := pair.name, chainId := chain.id, chain := chain.name,
      sellAmount := sellHuman, sellToken := pair.fromSymbol,
      buyToken := pair.toSymbol, quotes := quotes,
      minBuyAmount := pair.minBuyAmount, liquidity_flag := flag }
  match spread, flag with
  | some s, none =>
    { base with spread_percent := some s.spread_percent,
                best := s.best, worst := s.worst }
  | _, _ => base

/-- `pair.usdSellTarget || chain.defaultUsdSell || 10`. -/
def usdTargetFor (pair : Pair) (chain : Chain) : ℚ :=
  jsOrQ pair.usdSellTarget (jsOrQ chain.defaultUsdSell 10)

/-- The degraded-mode default of `calculateSellAmount`:
`max(1, usdTarget / 1000)` tokens. -/
def fallbackSizing (usdTarget : ℚ) (pair : Pair) : SellSizing :=
  let fallback := max 1 (usdTarget / 1000)
  { raw := ⌊fallback * 10 ^ pair.fromDecimals⌋, human := fallback }

/-- `calculateSellAmount(pair, chain)` with the USD-price lookup
(`fetchTokenUsdPrice`, including its `usd || null` normalization and the
per-run cache) as an oracle: `.error` models a thrown lookup failure,
`.ok none` a `null` result.  A truthy `sampleSellAmount` short-circuits;
else a truthy positive lookup price sizes from the USD target; else the
deterministic fallback. -/
def calculateSellAmount (pair : Pair) (chain : Chain)
    (priceLookup : Except JsError (Option ℚ)) : SellSizing :=
  if qTruthy pair.sampleSellAmount then
    let a := pair.sampleSellAmount.getD 0
    { raw := ⌊a * 10 ^ pair.fromDecimals⌋, human := a }
  else
    let usdTarget := usdTargetFor pair chain
    match priceLookup with
    | .ok p =>
      if qTruthy p then
        let tokens := usdTarget / p.getD 0
        { raw := max 1 ⌊tokens * 10 ^ pair.fromDecimals⌋, human := tokens }
      else fallbackSizing usdTarget pair
    | .error _ => fallbackSizing usdTarget pair

/-- `analyzePair(chain, pair)` with the two I/O oracles made explicit:
sizing via the USD-price lookup outcome, quotes via the network. -/
def analyzePair (chain : Chain) (pair : Pair)
    (priceLookup : Except JsError (Option ℚ)) (net : Network) : PairResult :=
  let sellInfo := calculateSellAmount pair chain priceLookup
  analyzePairResult chain pair sellInfo.human (collectQuotes chain pair net)

/-- The ordering realized by the comparator
`(a, b) => b.spread_percent - a.spread_percent`: `a` may precede `b`
iff the comparator is `≤ 0` there, i.e. `b`'s spread `≤` `a`'s. -/
def opportunityLe (a b : PairResult) : Bool :=
  decide (b.spread_percent.getD 0 ≤ a.spread_percent.getD 0)

/-- `sortOpportunities(list)`: keep the results with a truthy
`spread_percent`, sort descending by it.  JS `Array.prototype.sort` is
stable; `List.mergeSort` is the stable sort realizing the comparator. -/
def sortOpportunities (list : List PairResult) : List PairResult :=
  (list.filter (fun r => qTruthy r.spread_percent)).mergeSort opportunityLe

/-- A chain's report as assembled in `main`. -/
structure ChainReport where
  chain : String
  chainId : ℕ
  total_pairs : ℕ
  opportunities : List PairResult
  raw : List PairResult
  deriving DecidableEq, Repr

/-- One iteration of `main`'s chain loop, given the pair results. -/
def buildChainReport (chain : Chain) (pairResults : List PairResult) : ChainReport :=
  { chain := chain.name, chainId := chain.id, total_pairs := pairResults.length,
    opportunities := sortOpportunities pairResults, raw := pairResults }

/-- `main`'s global top list:
`sortOpportunities(chainReports.flatMap(c => c.opportunities)).slice(0, 20)`. -/
def topOpportunities (chainReports : List ChainReport) : List PairResult :=
  (sortOpportunities (chainReports.flatMap (fun c => c.opportunities))).take 20

/-! ## General lemmas about the embedding -/

lemma max?_spec {l : List ℚ} {a : ℚ} (h : l.max? = some a) :
    a ∈ l ∧ ∀ b ∈ l, b ≤ a := by
  haveI : Std.Antisymm (fun (x y : ℚ) => x ≤ y) := ⟨fun hx hy => le_antisymm hx hy⟩
  rw [List.max?_eq_some_iff (fun x => le_refl x) (fun x y => max_choice x y)
    (fun x y z => max_le_iff)] at h
  exact h

lemma min?_spec {l : List ℚ} {a : ℚ} (h : l.min? = some a) :
    a ∈ l ∧ ∀ b ∈ l, a ≤ b := by
  haveI : Std.Antisymm (fun (x y : ℚ) => x ≤ y) := ⟨fun hx hy => le_antisymm hx hy⟩
  rw [List.min?_eq_some_iff (fun x => le_refl x) (fun x y => min_choice x y)
    (fun x y z => le_min_iff)] at h
  exact h

lemma append_ne_empty_of_left {a : String} (b : String) (ha : a ≠ "") : a ++ b ≠ "" := by
  intro h
  apply ha
  have hd := congrArg String.data h
  rw [String.data_append] at hd
  have hnil : a.data = [] := (List.append_eq_nil.mp hd).1
  cases a
  simpa [String.ext_iff] using hnil

lemma append_ne_empty_of_right (a : String) {b : String} (hb : b ≠ "") : a ++ b ≠ "" := by
  intro h
  apply hb
  have hd := congrArg String.data h
  rw [String.data_append] at hd
  have hnil : b.data = [] := (List.append_eq_nil.mp hd).2
  cases b
  simpa [String.ext_iff] using hnil

lemma aggLabel_ne_empty (agg : String) (pair : Pair) : aggLabel agg pair ≠ "" := by
  unfold aggLabel
  exact append_ne_empty_of_left _ (append_ne_empty_of_right _ (by decide))

lemma withRetry_ok0 (fn : ℕ → Except JsError α) (label : String) (v : α)
    (h0 : fn 0 = .ok v) : withRetry fn label = (.ok v, 1, []) := by
  simp [withRetry, withRetryGo, MAX_RETRIES, h0]

lemma withRetry_ok1 (fn : ℕ → Except JsError α) (label : String) (e0 : JsError) (v : α)
    (h0 : fn 0 = .error e0) (h1 : fn 1 = .ok v) :
    withRetry fn label = (.ok v, 2, [500]) := by
  simp [withRetry, withRetryGo, MAX_RETRIES, RETRY_DELAY_MS, h0, h1]

lemma withRetry_ok2 (fn : ℕ → Except JsError α) (label : String) (e0 e1 : JsError) (v : α)
    (h0 : fn 0 = .error e0) (h1 : fn 1 = .error e1) (h2 : fn 2 = .ok v) :
    withRetry fn label = (.ok v, 3, [500, 1000]) := by
  simp [withRetry, withRetryGo, MAX_RETRIES, RETRY_DELAY_MS, h0, h1, h2]

lemma withRetry_exhausted (fn : ℕ → Except JsError α) (label : String) (e0 e1 e2 : JsError)
    (h0 : fn 0 = .error e0) (h1 : fn 1 = .error e1) (h2 : fn 2 = .error e2) :
    withRetry fn label = (.error (decorateError e2 label), 3, [500, 1000]) := by
  simp [withRetry, withRetryGo, MAX_RETRIES, RETRY_DELAY_MS, h0, h1, h2]

lemma isValidQuote_iff {q : Quote} : isValidQuote q = true ↔ ∃ p, q.price = some p ∧ p ≠ 0 := by
  unfold isValidQuote
  cases hq : q.price with
  | none => simp
  | some p => simp [bne_iff_ne]

lemma mem_validQuotes {q : Quote} {qs : List Quote} :
    q ∈ validQuotes qs ↔ q ∈ qs ∧ isValidQuote q = true := by
  simp [validQuotes, List.mem_filter]

lemma filterMap_price_length (l : List Quote) (h : ∀ q ∈ l, q.price.isSome = true) :
    (l.filterMap (fun q => q.price)).length = l.length := by
  induction l with
  | nil => simp
  | cons q t ih =>
    cases hq : q.price with
    | none =>
      have := h q (List.mem_cons_self q t)
      rw [hq] at this
      simp at this
    | some p =>
      simp only [List.filterMap_cons, hq, List.length_cons]
      rw [ih (fun r hr => h r (List.mem_cons_of_mem q hr))]

lemma validPrices_length (qs : List Quote) :
    (validPrices qs).length = (validQuotes qs).length := by
  apply filterMap_price_length
  intro q hq
  rcases isValidQuote_iff.mp (mem_validQuotes.mp hq).2 with ⟨p, hp, _⟩
  simp [hp]

lemma mem_validPrices {p : ℚ} {qs : List Quote} :
    p ∈ validPrices qs ↔ p ≠ 0 ∧ ∃ q ∈ qs, q.price = some p := by
  unfold validPrices
  rw [List.mem_filterMap]
  constructor
  · rintro ⟨q, hq, hp⟩
    rcases mem_validQuotes.mp hq with ⟨hmem, hvalid⟩
    rcases isValidQuote_iff.mp hvalid with ⟨p', hp', hne⟩
    rw [hp] at hp'
    cases hp'
    exact ⟨hne, q, hmem, hp⟩
  · rintro ⟨hne, q, hmem, hp⟩
    refine ⟨q, mem_validQuotes.mpr ⟨hmem, isValidQuote_iff.mpr ⟨p, hp, hne⟩⟩, hp⟩

lemma find?_validQuotes (qs : List Quote) (x : ℚ) (hx : x ≠ 0) :
    (validQuotes qs).find? (fun q => q.price == some x)
      = qs.find? (fun q => q.price == some x) := by
  unfold validQuotes
  rw [List.find?_filter]
  congr 1
  funext q
  cases hq : (q.price == some x) with
  | true =>
    have hprice : q.price = some x := beq_iff_eq.mp hq
    have hvalid : isValidQuote q = true := isValidQuote_iff.mpr ⟨x, hprice, hx⟩
    simp [hq, hvalid]
  | false => simp [hq]

lemma exists_max? (l : List ℚ) (h : l ≠ []) : ∃ a, l.max? = some a := by
  cases hm : l.max? with
  | none => exact absurd (List.max?_eq_none_iff.mp hm) h
  | some a => exact ⟨a, rfl⟩

lemma exists_min? (l : List ℚ) (h : l ≠ []) : ∃ a, l.min? = some a := by
  cases hm : l.min? with
  | none => exact absurd (List.min?_eq_none_iff.mp hm) h
  | some a => exact ⟨a, rfl⟩

lemma computeSpread_some_imp {qs : List Quote} {s : SpreadResult}
    (h : computeSpread qs = some s) : 2 ≤ (validQuotes qs).length := by
  unfold computeSpread at h
  by_cases hl : (validQuotes qs).length < 2
  · simp [hl] at h
  · omega

lemma bestBuy_eq_zero {qs : List Quote} (h : ∀ q ∈ qs, q.buyAmountHuman = none) :
    bestBuy qs = 0 := by
  unfold bestBuy
  cases hm : (qs.map fun q => jsOrQ q.buyAmountHuman 0).max? with
  | none => rfl
  | some m =>
    have hmem := (max?_spec hm).1
    rw [List.mem_map] at hmem
    rcases hmem with ⟨q, hq, hval⟩
    rw [h q hq] at hval
    simpa [jsOrQ] using hval.symm

lemma opportunityLe_trans (a b c : PairResult)
    (h1 : opportunityLe a b = true) (h2 : opportunityLe b c = true) :
    opportunityLe a c = true := by
  simp only [opportunityLe, decide_eq_true_eq] at *
  exact le_trans h2 h1

lemma opportunityLe_total (a b : PairResult) :
    (opportunityLe a b || opportunityLe b a) = true := by
  simp only [opportunityLe, Bool.or_eq_true, decide_eq_true_eq]
  exact le_total _ _

lemma mem_sortOpportunities {r : PairResult} {l : List PairResult} :
    r ∈ sortOpportunities l ↔ r ∈ l ∧ qTruthy r.spread_percent = true := by
  simp [sortOpportunities, List.mem_mergeSort, List.mem_filter]

lemma withRetry_cases (fn : ℕ → Except JsError α) (label : String) :
    (∃ v, fn 0 = .ok v ∧ withRetry fn label = (.ok v, 1, []))
    ∨ (∃ e0 v, fn 0 = .error e0 ∧ fn 1 = .ok v ∧ withRetry fn label = (.ok v, 2, [500]))
    ∨ (∃ e0 e1 v, fn 0 = .error e0 ∧ fn 1 = .error e1 ∧ fn 2 = .ok v
        ∧ withRetry fn label = (.ok v, 3, [500, 1000]))
    ∨ (∃ e0 e1 e2, fn 0 = .error e0 ∧ fn 1 = .error e1 ∧ fn 2 = .error e2
        ∧ withRetry fn label = (.error (decorateError e2 label), 3, [500, 1000])) := by
  rcases h0 : fn 0 with e0 | v0
  · rcases h1 : fn 1 with e1 | v1
    · rcases h2 : fn 2 with e2 | v2
      · exact .inr (.inr (.inr ⟨e0, e1, e2, rfl, rfl, rfl,
          withRetry_exhausted fn label e0 e1 e2 h0 h1 h2⟩))
      · exact .inr (.inr (.inl ⟨e0, e1, v2, rfl, rfl, rfl,
          withRetry_ok2 fn label e0 e1 v2 h0 h1 h2⟩))
    · exact .inr (.inl ⟨e0, v1, rfl, rfl, withRetry_ok1 fn label e0 v1 h0 h1⟩)
  · exact .inl ⟨v0, rfl, withRetry_ok0 fn label v0 h0⟩

lemma decorateError_plain (msg label : String) (hmsg : msg ≠ "") (hlabel : label ≠ "") :
    decorateError { message := msg } label = { message := label ++ " failed: " ++ msg } := by
  unfold decorateError errReason statusSuffix
  rw [if_neg hlabel]
  simp only [jsOrStr]
  rw [if_neg hmsg]
  rw [String.append_empty, String.append_assoc label " failed" ": "]
  rfl

lemma analyzePairResult_flag (chain : Chain) (pair : Pair) (sellHuman : ℚ)
    (quotes : List Quote) :
    (analyzePairResult chain pair sellHuman quotes).liquidity_flag
      = liquidityFlagFor pair quotes := by
  unfold analyzePairResult
  cases computeSpread quotes <;> cases hf : liquidityFlagFor pair quotes <;> simp [hf]

lemma analyzePairResult_of_flag (chain : Chain) (pair : Pair) (sellHuman : ℚ)
    (quotes : List Quote) (f : String) (hf : liquidityFlagFor pair quotes = some f) :
    (analyzePairResult chain pair sellHuman quotes).spread_percent = none
    ∧ (analyzePairResult chain pair sellHuman quotes).best = none
    ∧ (analyzePairResult chain pair sellHuman quotes).worst = none := by
  unfold analyzePairResult
  cases computeSpread quotes <;> simp [hf]

lemma liquidityFlagFor_isSome (pair : Pair) (quotes : List Quote) (m : ℚ)
    (hm : pair.minBuyAmount = some m) (hne : m ≠ 0) (hlow : bestBuy quotes < m) :
    (liquidityFlagFor pair quotes).isSome = true := by
  unfold liquidityFlagFor
  rw [hm]
  simp [qTruthy, bne_iff_ne, hne, hlow]

/-! ## The claims -/

/-- **C5**: `withRetry(operation, label)` makes at most 3 total attempts
(2 retries), waiting `baseDelay × n` (base 500 ms) before retry `n`; a
successful result is returned unchanged; on exhaustion it raises a
single decorated error combining the supplied label, the HTTP status
code if present, and the most specific available failure message
(provider-supplied description, else message, else generic failure
text). -/
theorem c5_withRetry_policy (fn : ℕ → Except JsError RawQuote) (label : String) :
    (withRetry fn label).2.1 ≤ 3
    ∧ (∀ i x, ((withRetry fn label).2.2)[i]? = some x → x = RETRY_DELAY_MS * (i + 1))
    ∧ (∀ v, fn 0 = .ok v → withRetry fn label = (.ok v, 1, []))
    ∧ (∀ e0 v, fn 0 = .error e0 → fn 1 = .ok v →
        withRetry fn label = (.ok v, 2, [RETRY_DELAY_MS * 1]))
    ∧ (∀ e0 e1 v, fn 0 = .error e0 → fn 1 = .error e1 → fn 2 = .ok v →
        withRetry fn label = (.ok v, 3, [RETRY_DELAY_MS * 1, RETRY_DELAY_MS * 2]))
    ∧ (∀ e0 e1 e2, fn 0 = .error e0 → fn 1 = .error e1 → fn 2 = .error e2 →
        withRetry fn label = (.error (decorateError e2 label), 3,
          [RETRY_DELAY_MS * 1, RETRY_DELAY_MS * 2]))
    ∧ (∀ e : JsError, label ≠ "" → (decorateError e label).message
        = label ++ " failed" ++ statusSuffix e ++ ": " ++ errReason e)
    ∧ (∀ e : JsError, ∀ n, e.responseStatus = some n → n ≠ 0 →
        statusSuffix e = " [" ++ toString n ++ "]")
    ∧ (∀ e : JsError, e.responseStatus = none → statusSuffix e = "")
    ∧ (∀ e : JsError, ∀ d, e.responseDescription = some d → d ≠ "" → errReason e = d)
    ∧ (∀ e : JsError, ∀ m, strTruthy e.responseDescription = false →
        e.responseDataMessage = some m → m ≠ "" → errReason e = m)
    ∧ (∀ e : JsError, strTruthy e.responseDescription = false →
        strTruthy e.responseDataMessage = false → e.message ≠ "" → errReason e = e.message) := by
  refine ⟨?_, ?_, ?_, ?_, ?_, ?_, ?_, ?_, ?_, ?_, ?_, ?_⟩
  · rcases withRetry_cases fn label with ⟨v, _, hw⟩ | ⟨e0, v, _, _, hw⟩
      | ⟨e0, e1, v, _, _, _, hw⟩ | ⟨e0, e1, e2, _, _, _, hw⟩ <;> rw [hw] <;> norm_num
  · rcases withRetry_cases fn label with ⟨v, _, hw⟩ | ⟨e0, v, _, _, hw⟩
      | ⟨e0, e1, v, _, _, _, hw⟩ | ⟨e0, e1, e2, _, _, _, hw⟩ <;> rw [hw] <;>
      intro i x hx <;>
      rcases i with _ | _ | i <;>
      simp_all [RETRY_DELAY_MS]
  · exact fun v h0 => withRetry_ok0 fn label v h0
  · intro e0 v h0 h1
    rw [withRetry_ok1 fn label e0 v h0 h1]
    norm_num [RETRY_DELAY_MS]
  · intro e0 e1 v h0 h1 h2
    rw [withRetry_ok2 fn label e0 e1 v h0 h1 h2]
    norm_num [RETRY_DELAY_MS]
  · intro e0 e1 e2 h0 h1 h2
    rw [withRetry_exhausted fn label e0 e1 e2 h0 h1 h2]
    norm_num [RETRY_DELAY_MS]
  · intro e hl
    simp [decorateError, hl]
  · intro e n hs hn
    simp [statusSuffix, hs, hn]
  · intro e hs
    simp [statusSuffix, hs]
  · intro e d hd hne
    simp [errReason, hd, jsOrStr, hne]
  · intro e m hdesc hm hne
    cases hd : e.responseDescription with
    | none => simp [errReason, hd, hm, jsOrStr, hne]
    | some d =>
      rw [hd] at hdesc
      have : d = "" := by simpa [strTruthy] using hdesc
      simp [errReason, hd, hm, jsOrStr, this, hne]
  · intro e hdesc hdata hne
    cases hd : e.responseDescription with
    | none =>
      cases hm : e.responseDataMessage with
      | none => simp [errReason, hd, hm, jsOrStr, hne]
      | some m =>
        rw [hm] at hdata
        have : m = "" := by simpa [strTruthy] using hdata
        simp [errReason, hd, hm, jsOrStr, this, hne]
    | some d =>
      rw [hd] at hdesc
      have hde : d = "" := by simpa [strTruthy] using hdesc
      cases hm : e.responseDataMessage with
      | none => simp [errReason, hd, hm, jsOrStr, hde, hne]
      | some m =>
        rw [hm] at hdata
        have hme : m = "" := by simpa [strTruthy] using hdata
        simp [errReason, hd, hm, jsOrStr, hde, hme, hne]

/-- A provider call that fails on every attempt with a rate-limit error. -/
def c5wFn : ℕ → Except JsError RawQuote :=
  fun _ => .error { message := "timeout", responseStatus := some 429,
                    responseDataMessage := some "rate limited" }

/-- Witness for **C5**: three attempts, backoff `[500, 1000]`, and the
decorated error `"0x WETH-USDC failed [429]: rate limited"`. -/
theorem c5_withRetry_policy_witness :
    withRetry c5wFn "0x WETH-USDC"
      = (.error { message := "0x WETH-USDC failed [429]: rate limited" }, 3, [500, 1000]) := by
  have h := (c5_withRetry_policy c5wFn "0x WETH-USDC").2.2.2.2.2.1
    _ _ _ rfl rfl rfl
  rw [h]
  rfl

/-- **C8**: sell sizing never fails outright: with a fixed sell amount
the raw amount is `floor(amount × 10^decimals)`; with a USD target and
an available positive looked-up price it is
`max(1, floor((usdTarget / price) × 10^decimals))`; when the lookup
fails or returns nothing it falls back to `max(1, usdTarget / 1000)`
tokens. -/
theorem c8_sell_sizing (pair : Pair) (chain : Chain)
    (lookup : Except JsError (Option ℚ)) :
    (∀ a : ℚ, pair.sampleSellAmount = some a → a ≠ 0 →
      calculateSellAmount pair chain lookup
        = { raw := ⌊a * 10 ^ pair.fromDecimals⌋, human := a })
    ∧ (∀ p : ℚ, qTruthy pair.sampleSellAmount = false → lookup = .ok (some p) → 0 < p →
      calculateSellAmount pair chain lookup
        = { raw := max 1 ⌊usdTargetFor pair chain / p * 10 ^ pair.fromDecimals⌋,
            human := usdTargetFor pair chain / p })
    ∧ (qTruthy pair.sampleSellAmount = false →
        (lookup = .ok none ∨ ∃ e, lookup = .error e) →
      (calculateSellAmount pair chain lookup).human
        = max 1 (usdTargetFor pair chain / 1000)) := by
  refine ⟨?_, ?_, ?_⟩
  · intro a ha hne
    simp [calculateSellAmount, ha, qTruthy, bne_iff_ne, hne]
  · intro p hs hl hp
    rw [hl]
    simp only [calculateSellAmount, hs]
    simp [qTruthy, bne_iff_ne, ne_of_gt hp]
  · intro hs hl
    rcases hl with hl | ⟨e, hl⟩ <;> rw [hl] <;>
      simp only [calculateSellAmount, hs, fallbackSizing] <;> simp [qTruthy]

/-- A pair probing a fixed `2.5`-token sample at 6 decimals. -/
def c8wPairFixed : Pair := { name := "USDC-WETH", fromDecimals := 6, sampleSellAmount := some (5/2) }

/-- A pair sized from a `20` USD target at 18 decimals. -/
def c8wPairUsd : Pair := { name := "WETH-DAI", fromDecimals := 18, usdSellTarget := some 20 }

/-- A pair with no sizing hints (defaults to the 10 USD target). -/
def c8wPairBare : Pair := { name := "AAA-BBB", fromDecimals := 6 }

/-- Witness for **C8**: `2.5` tokens at 6 decimals give raw `2500000`;
USD target `20` at price `4` with 18 decimals gives raw `5 × 10^18`; and
a failed lookup falls back to `max(1, 10/1000) = 1` token. -/
theorem c8_sell_sizing_witness :
    calculateSellAmount c8wPairFixed { id := 1 } (.ok none)
      = { raw := 2500000, human := 5/2 }
    ∧ calculateSellAmount c8wPairUsd { id := 1 } (.ok (some 4))
      = { raw := 5 * 10 ^ 18, human := 5 }
    ∧ (calculateSellAmount c8wPairBare { id := 1 } (.error {})).human = 1 := by
  refine ⟨?_, ?_, ?_⟩
  · have h := (c8_sell_sizing c8wPairFixed { id := 1 } (.ok none)).1 (5/2) rfl (by norm_num)
    rw [h]
    have hd : c8wPairFixed.fromDecimals = 6 := rfl
    rw [hd]
    norm_num
  · have h := (c8_sell_sizing c8wPairUsd { id := 1 } (.ok (some 4))).2.1 4 rfl rfl (by norm_num)
    rw [h]
    have hd : c8wPairUsd.fromDecimals = 18 := rfl
    have ht : usdTargetFor c8wPairUsd { id := 1 } = 20 := by
      norm_num [usdTargetFor, c8wPairUsd, jsOrQ]
    rw [hd, ht]
    norm_num
  · have h := (c8_sell_sizing c8wPairBare { id := 1 } (.error {})).2.2 rfl (.inr ⟨{}, rfl⟩)
    rw [h]
    have ht : usdTargetFor c8wPairBare { id := 1 } = 10 := by
      norm_num [usdTargetFor, c8wPairBare, jsOrQ]
    rw [ht]
    norm_num

/-- **C4**: `collectQuotes` returns exactly one Quote per enabled
provider, in provider-configuration order; a provider whose call
ultimately fails contributes a Quote carrying only `{source, error}`,
and that failure never removes or alters the quotes produced by sibling
providers for the same pair (a pair's quote at position `i` depends only
on the configured aggregator at position `i` and that provider's own
request behaviour). -/
theorem c4_collectQuotes (chain : Chain) (pair : Pair) (net : Network) :
    (collectQuotes chain pair net).length = chain.aggregators.length
    ∧ (∀ (i : ℕ) agg, chain.aggregators[i]? = some agg →
        (collectQuotes chain pair net)[i]? = some (providerQuote chain pair net agg))
    ∧ (∀ agg e, providerResult chain pair net agg = .error e →
        providerQuote chain pair net agg = { source := agg, error := some e.message })
    ∧ (∀ agg res, providerResult chain pair net agg = .ok res →
        providerQuote chain pair net agg = normalizeQuote res pair)
    ∧ (∀ (net2 : Network) agg, providerFn chain net2 agg = providerFn chain net agg →
        providerQuote chain pair net2 agg = providerQuote chain pair net agg) := by
  refine ⟨?_, ?_, ?_, ?_, ?_⟩
  · simp [collectQuotes]
  · intro i agg h
    simp [collectQuotes, List.getElem?_map, h]
  · intro agg e h
    simp [providerQuote, h]
  · intro agg res h
    simp [providerQuote, h]
  · intro net2 agg h
    unfold providerQuote providerResult
    rw [h]

/-- Two enabled providers; 0x answers, 1inch is down on every attempt. -/
def c4wChain : Chain := { id := 1, aggregators := ["0x", "1inch"] }

/-- The pair scanned in the C4 witness. -/
def c4wPair : Pair := { name := "WETH-USDC", fromDecimals := 18, toDecimals := 6 }

/-- 0x responds with a priced quote, 1inch fails every attempt. -/
def c4wNet : Network :=
  { ox := fun _ => .ok { price := some 2, buyAmount := some 100, sellAmount := some 50 },
    oneinch := fun _ => .error { message := "boom" },
    paraswap := fun _ => .ok {}, cowswap := fun _ => .ok {} }

/-- Witness for **C4**: both providers yield a quote in configuration
order; the failed provider contributes `{source, error}` only, the
sibling's quote is intact. -/
theorem c4_collectQuotes_witness :
    (collectQuotes c4wChain c4wPair c4wNet).length = 2
    ∧ (collectQuotes c4wChain c4wPair c4wNet)[0]?
        = some (normalizeQuote { source := "0x", price := some 2, buyAmount := some 100, sellAmount := some 50 } c4wPair)
    ∧ (collectQuotes c4wChain c4wPair c4wNet)[1]?
        = some { source := "1inch", error := some "1inch WETH-USDC failed: boom" } := by
  have h := c4_collectQuotes c4wChain c4wPair c4wNet
  refine ⟨?_, ?_, ?_⟩
  · rw [h.1]
    rfl
  · rw [h.2.1 0 "0x" rfl, h.2.2.2.1 "0x"
      { source := "0x", price := some 2, buyAmount := some 100, sellAmount := some 50 } rfl]
  · rw [h.2.1 1 "1inch" rfl, h.2.2.1 "1inch" { message := "1inch WETH-USDC failed: boom" } rfl]

/-- **C10**: a configured aggregator identifier outside
`{0x, 1inch, paraswap, cow}` never aborts the pair or the run: its slot
holds a Quote `{source: id, error: message naming the unknown
aggregator}` while every other slot holds the quote its own provider
produced. -/
theorem c10_unknown_aggregator (chain : Chain) (pair : Pair) (net : Network) (agg : String)
    (h0 : agg ≠ "0x") (h1 : agg ≠ "1inch") (h2 : agg ≠ "paraswap") (h3 : agg ≠ "cow") :
    providerQuote chain pair net agg
      = { source := agg, error := some (aggLabel agg pair ++ " failed: " ++ ("Unknown aggregator " ++ agg)) }
    ∧ (∀ (i : ℕ), chain.aggregators[i]? = some agg →
        (collectQuotes chain pair net)[i]?
          = some { source := agg, error := some (aggLabel agg pair ++ " failed: " ++ ("Unknown aggregator " ++ agg)) })
    ∧ (∀ (i : ℕ) agg2, chain.aggregators[i]? = some agg2 →
        (collectQuotes chain pair net)[i]? = some (providerQuote chain pair net agg2)) := by
  have hfn : ∀ k, providerFn chain net agg k
      = .error { message := "Unknown aggregator " ++ agg } := by
    intro k
    simp [providerFn, h0, h1, h2, h3]
  have hmain : providerQuote chain pair net agg
      = { source := agg, error := some (aggLabel agg pair ++ " failed: " ++ ("Unknown aggregator " ++ agg)) } := by
    unfold providerQuote providerResult
    rw [withRetry_exhausted _ _ _ _ _ (hfn 0) (hfn 1) (hfn 2)]
    rw [decorateError_plain _ _ (append_ne_empty_of_left _ (by decide)) (aggLabel_ne_empty agg pair)]
  refine ⟨hmain, ?_, ?_⟩
  · intro i hi
    have h2 : (collectQuotes chain pair net)[i]? = some (providerQuote chain pair net agg) := by
      simp [collectQuotes, List.getElem?_map, hi]
    rw [h2, hmain]
  · intro i agg2 hi
    simp [collectQuotes, List.getElem?_map, hi]

/-- A chain configured with an unrecognized aggregator id before 0x. -/
def c10wChain : Chain := { id := 1, aggregators := ["kyber", "0x"] }

/-- The pair scanned in the C10 witness. -/
def c10wPair : Pair := { name := "WETH-USDC", fromDecimals := 18, toDecimals := 6 }

/-- 0x responds normally; the unknown id never reaches the network. -/
def c10wNet : Network :=
  { ox := fun _ => .ok { price := some 2, buyAmount := some 100, sellAmount := some 50 },
    oneinch := fun _ => .ok {}, paraswap := fun _ => .ok {}, cowswap := fun _ => .ok {} }

/-- Witness for **C10**: the unknown id yields an error quote naming it,
the recognized sibling is produced normally. -/
theorem c10_unknown_aggregator_witness :
    (collectQuotes c10wChain c10wPair c10wNet)[0]?
      = some { source := "kyber", error := some "kyber WETH-USDC failed: Unknown aggregator kyber" }
    ∧ (collectQuotes c10wChain c10wPair c10wNet)[1]?
      = some (normalizeQuote { source := "0x", price := some 2, buyAmount := some 100, sellAmount := some 50 } c10wPair) := by
  have h := c10_unknown_aggregator c10wChain c10wPair c10wNet "kyber"
    (by decide) (by decide) (by decide) (by decide)
  refine ⟨?_, ?_⟩
  · rw [h.2.1 0 rfl]
    rfl
  · rw [h.2.2 1 "0x" rfl]
    rfl

/-- A chain (Arbitrum, id 42161) for which neither the 0x nor the
CowSwap host table has an entry. -/
def c6Chain : Chain := { id := 42161, aggregators := ["0x"] }

/-- The pair used in the C6 counterexample. -/
def c6Pair : Pair := { name := "ARB-USDC" }

/-- A network that would answer every request successfully (the
unsupported-chain failure is raised before any request is made). -/
def c6Net : Network :=
  { ox := fun _ => .ok {}, oneinch := fun _ => .ok {},
    paraswap := fun _ => .ok {}, cowswap := fun _ => .ok {} }

/-- Counterexample to **C6** (claim: an UnsupportedChain failure "is not
subjected to the retry policy before being surfaced"): on a chain with
no 0x endpoint the adapter raises the UnsupportedChain error on every
attempt, and `collectQuotes`'s task wraps it in `withRetry`, which makes
3 attempts (not 1) and performs both backoff sleeps before surfacing the
decorated error. -/
theorem c6_counterexample :
    providerFn c6Chain c6Net "0x" 0 = .error { message := "0x not supported for chain" }
    ∧ ¬ ((withRetry (providerFn c6Chain c6Net "0x") (aggLabel "0x" c6Pair)).2.1 = 1)
    ∧ (withRetry (providerFn c6Chain c6Net "0x") (aggLabel "0x" c6Pair)).2.1 = 3
    ∧ (withRetry (providerFn c6Chain c6Net "0x") (aggLabel "0x" c6Pair)).2.2 = [500, 1000] := by
  refine ⟨rfl, by decide, rfl, rfl⟩

/-- **C6 (amended)**: an UnsupportedChain failure — the 0x or CowSwap
adapter invoked for a chain with no configured endpoint — is raised at
adapter level before any network access, but it is retried like any
other failure: the invocation is subjected to the full retry policy
(3 attempts with backoff sleeps 500 ms and 1000 ms) before being
surfaced as a decorated error quote. -/
theorem c6_unsupported_chain_retried (chain : Chain) (pair : Pair) (net : Network) :
    (chain.id ∉ OX_HOSTS →
      (∀ k, providerFn chain net "0x" k = .error { message := "0x not supported for chain" })
      ∧ withRetry (providerFn chain net "0x") (aggLabel "0x" pair)
          = (.error (decorateError { message := "0x not supported for chain" }
              (aggLabel "0x" pair)), 3, [500, 1000])
      ∧ providerQuote chain pair net "0x"
          = { source := "0x", error := some (aggLabel "0x" pair ++ " failed: " ++ "0x not supported for chain") })
    ∧ (chain.id ∉ COW_HOSTS →
      (∀ k, providerFn chain net "cow" k = .error { message := "CowSwap not supported for chain" })
      ∧ withRetry (providerFn chain net "cow") (aggLabel "cow" pair)
          = (.error (decorateError { message := "CowSwap not supported for chain" }
              (aggLabel "cow" pair)), 3, [500, 1000])
      ∧ providerQuote chain pair net "cow"
          = { source := "cow", error := some (aggLabel "cow" pair ++ " failed: " ++ "CowSwap not supported for chain") }) := by
  constructor
  · intro hox
    have hfn : ∀ k, providerFn chain net "0x" k
        = .error { message := "0x not supported for chain" } := by
      intro k
      simp [providerFn, quote0x, hox]
    have hw := withRetry_exhausted (providerFn chain net "0x") (aggLabel "0x" pair)
      _ _ _ (hfn 0) (hfn 1) (hfn 2)
    refine ⟨hfn, hw, ?_⟩
    unfold providerQuote providerResult
    rw [hw]
    rw [decorateError_plain _ _ (by decide) (aggLabel_ne_empty "0x" pair)]
  · intro hcow
    have hfn : ∀ k, providerFn chain net "cow" k
        = .error { message := "CowSwap not supported for chain" } := by
      intro k
      simp [providerFn, quoteCow, hcow]
    have hw := withRetry_exhausted (providerFn chain net "cow") (aggLabel "cow" pair)
      _ _ _ (hfn 0) (hfn 1) (hfn 2)
    refine ⟨hfn, hw, ?_⟩
    unfold providerQuote providerResult
    rw [hw]
    rw [decorateError_plain _ _ (by decide) (aggLabel_ne_empty "cow" pair)]

/-- Witness for the amended **C6**: on chain id 42161 the 0x task makes
three attempts and yields the decorated UnsupportedChain error quote. -/
theorem c6_unsupported_chain_retried_witness :
    providerQuote c6Chain c6Pair c6Net "0x"
      = { source := "0x", error := some "0x ARB-USDC failed: 0x not supported for chain" } := by
  have h := (c6_unsupported_chain_retried c6Chain c6Pair c6Net).1 (by decide)
  rw [h.2.2]
  rfl

/-- **C9**: for a pair declaring a positive minimum buy amount, if every
provider call ultimately fails, every quote is an error quote with no
buy amount, such quotes contribute `0` to the liquidity check, so the
best observed buy amount is `0`, falls below the minimum, and the
`PairResult` carries a liquidity flag. -/
theorem c9_all_providers_fail (chain : Chain) (pair : Pair) (net : Network)
    (sellHuman : ℚ) (m : ℚ) (hm : pair.minBuyAmount = some m) (hmpos : 0 < m)
    (hfail : ∀ agg ∈ chain.aggregators, (providerResult chain pair net agg).isOk = false) :
    (∀ q ∈ collectQuotes chain pair net, q.buyAmountHuman = none ∧ q.error.isSome = true)
    ∧ bestBuy (collectQuotes chain pair net) = 0
    ∧ (analyzePairResult chain pair sellHuman (collectQuotes chain pair net)).liquidity_flag.isSome
        = true := by
  have hq : ∀ q ∈ collectQuotes chain pair net,
      q.buyAmountHuman = none ∧ q.error.isSome = true := by
    intro q hqmem
    rw [collectQuotes, List.mem_map] at hqmem
    rcases hqmem with ⟨agg, hagg, rfl⟩
    unfold providerQuote
    cases hres : providerResult chain pair net agg with
    | ok res =>
      have := hfail agg hagg
      rw [hres] at this
      simp [Except.isOk, Except.toBool] at this
    | error e => simp
  have hbest : bestBuy (collectQuotes chain pair net) = 0 :=
    bestBuy_eq_zero (fun q hqmem => (hq q hqmem).1)
  refine ⟨hq, hbest, ?_⟩
  rw [analyzePairResult_flag]
  exact liquidityFlagFor_isSome pair _ m hm (ne_of_gt hmpos) (hbest ▸ hmpos)

/-- Two enabled providers, both of which are down. -/
def c9wChain : Chain := { id := 1, aggregators := ["0x", "1inch"] }

/-- A pair demanding at least 5 tokens out. -/
def c9wPair : Pair := { name := "WETH-USDC", minBuyAmount := some 5 }

/-- Every provider request fails on every attempt. -/
def c9wNet : Network :=
  { ox := fun _ => .error { message := "down" }, oneinch := fun _ => .error { message := "down" },
    paraswap := fun _ => .error { message := "down" }, cowswap := fun _ => .error { message := "down" } }

/-- Witness for **C9**: with both providers down, the best buy is `0`
and the result is flagged for thin liquidity. -/
theorem c9_all_providers_fail_witness :
    bestBuy (collectQuotes c9wChain c9wPair c9wNet) = 0
    ∧ (analyzePairResult c9wChain c9wPair 1 (collectQuotes c9wChain c9wPair c9wNet)).liquidity_flag.isSome
        = true := by
  have h := c9_all_providers_fail c9wChain c9wPair c9wNet 1 5 rfl (by norm_num)
    (by
      intro agg hagg
      have : agg = "0x" ∨ agg = "1inch" := by simpa [c9wChain] using hagg
      rcases this with rfl | rfl <;> rfl)
  exact ⟨h.2.1, h.2.2⟩

/-- The claim-side predicate "this quote has a finite positive price". -/
def positivePricePred (q : Quote) : Bool :=
  match q.price with
  | some p => decide (0 < p)
  | none => false

/-- Two quotes whose prices are negative: they pass the code's validity
filter (truthy and finite) although neither price is positive. -/
def c1Quotes : List Quote :=
  [{ source := "a", price := some (-1) }, { source := "b", price := some (-2) }]

/-- The pair of the C1 counterexample (no minimum buy amount). -/
def c1Pair : Pair := { name := "NEG-PAIR" }

/-- The chain of the C1 counterexample. -/
def c1Chain : Chain := { id := 1 }

/-- Counterexample to **C1** (claim: `spread_percent` is present only if
at least two quotes had a finite positive price and no liquidity flag is
set): with two negative-priced quotes the result carries
`spread_percent` (and no flag) although zero quotes have a positive
price. -/
theorem c1_counterexample :
    (analyzePairResult c1Chain c1Pair 1 c1Quotes).spread_percent.isSome = true
    ∧ (analyzePairResult c1Chain c1Pair 1 c1Quotes).liquidity_flag = none
    ∧ c1Quotes.countP positivePricePred = 0 := by
  have h1 : ((-1 : ℚ) != 0) = true := by norm_num
  have h2 : ((-2 : ℚ) != 0) = true := by norm_num
  have e11 : ((-1 : ℚ) == (-1 : ℚ)) = true := by norm_num
  have e21 : ((-2 : ℚ) == (-1 : ℚ)) = false := by norm_num
  have e12 : ((-1 : ℚ) == (-2 : ℚ)) = false := by norm_num
  have e22 : ((-2 : ℚ) == (-2 : ℚ)) = true := by norm_num
  have hspread : computeSpread c1Quotes
      = some { spread_percent := -50, best := some "a", worst := some "b" } := by
    norm_num [computeSpread, validQuotes, validPrices, isValidQuote, c1Quotes,
      List.max?, List.min?, List.foldl, List.find?, List.filterMap_cons,
      h1, h2, e11, e21, e12, e22, max_def, min_def]
  have hflag : liquidityFlagFor c1Pair c1Quotes = none := by
    simp [liquidityFlagFor, c1Pair, qTruthy]
  refine ⟨?_, ?_, ?_⟩
  · simp [analyzePairResult, hspread, hflag]
  · rw [analyzePairResult_flag]
    exact hflag
  · have p1 : ¬ (0 < (-1 : ℚ)) := by norm_num
    have p2 : ¬ (0 < (-2 : ℚ)) := by norm_num
    simp [c1Quotes, positivePricePred, List.countP, List.countP.go, p1, p2]

/-- **C1 (amended)**: for every PairResult produced by `analyzePair`,
the `spread_percent` field (together with `best` and `worst`) is present
only if at least two of the pair's quotes had a finite nonzero (truthy)
price and no liquidity flag is set on the result; with fewer than two
such quotes all three fields are absent. -/
theorem c1_spread_presence (chain : Chain) (pair : Pair) (sellHuman : ℚ)
    (quotes : List Quote) :
    (((analyzePairResult chain pair sellHuman quotes).spread_percent.isSome = true
      ∨ (analyzePairResult chain pair sellHuman quotes).best.isSome = true
      ∨ (analyzePairResult chain pair sellHuman quotes).worst.isSome = true) →
      2 ≤ (validQuotes quotes).length
      ∧ (analyzePairResult chain pair sellHuman quotes).liquidity_flag = none)
    ∧ ((validQuotes quotes).length < 2 →
      (analyzePairResult chain pair sellHuman quotes).spread_percent = none
      ∧ (analyzePairResult chain pair sellHuman quotes).best = none
      ∧ (analyzePairResult chain pair sellHuman quotes).worst = none) := by
  constructor
  · intro hpres
    cases hsp : computeSpread quotes with
    | none =>
      exfalso
      unfold analyzePairResult at hpres
      simp [hsp] at hpres
    | some s =>
      cases hfl : liquidityFlagFor pair quotes with
      | some f =>
        exfalso
        unfold analyzePairResult at hpres
        simp [hsp, hfl] at hpres
      | none =>
        refine ⟨computeSpread_some_imp hsp, ?_⟩
        rw [analyzePairResult_flag]
        exact hfl
  · intro hlen
    have hsp : computeSpread quotes = none := by
      unfold computeSpread
      simp [hlen]
    unfold analyzePairResult
    simp [hsp]

/-- A single-quote list: one valid price is not enough for a spread. -/
def c1wQuotes : List Quote := [{ source := "a", price := some 1 }]

/-- Witness for the amended **C1**: with a single valid-priced quote the
result carries no spread fields. -/
theorem c1_spread_presence_witness :
    (analyzePairResult c1Chain c1Pair 1 c1wQuotes).spread_percent = none
    ∧ (analyzePairResult c1Chain c1Pair 1 c1wQuotes).best = none
    ∧ (analyzePairResult c1Chain c1Pair 1 c1wQuotes).worst = none := by
  have hlen : (validQuotes c1wQuotes).length < 2 := by
    have h1 : ((1 : ℚ) != 0) = true := by norm_num
    simp [validQuotes, c1wQuotes, isValidQuote, h1]
  exact (c1_spread_presence c1Chain c1Pair 1 c1wQuotes).2 hlen

/-- **C3**: for every pair that declares a (truthy, positive) minimum
acceptable buy amount, if the maximum human buy amount across all
quotes falls below that minimum, the PairResult carries a liquidity
flag, its `spread_percent`/`best`/`worst` are suppressed even when a
valid spread was computable, and the result is absent from every list
produced by `sortOpportunities`. -/
theorem c3_liquidity_gate (chain : Chain) (pair : Pair) (sellHuman : ℚ)
    (quotes : List Quote) (m : ℚ) (hm : pair.minBuyAmount = some m) (hmpos : 0 < m)
    (hlow : bestBuy quotes < m) :
    (analyzePairResult chain pair sellHuman quotes).liquidity_flag.isSome = true
    ∧ (analyzePairResult chain pair sellHuman quotes).spread_percent = none
    ∧ (analyzePairResult chain pair sellHuman quotes).best = none
    ∧ (analyzePairResult chain pair sellHuman quotes).worst = none
    ∧ ∀ l : List PairResult,
        analyzePairResult chain pair sellHuman quotes ∉ sortOpportunities l := by
  have hflag : (liquidityFlagFor pair quotes).isSome = true :=
    liquidityFlagFor_isSome pair quotes m hm (ne_of_gt hmpos) hlow
  rcases Option.isSome_iff_exists.mp hflag with ⟨f, hf⟩
  have hfields := analyzePairResult_of_flag chain pair sellHuman quotes f hf
  refine ⟨?_, hfields.1, hfields.2.1, hfields.2.2, ?_⟩
  · rw [analyzePairResult_flag]
    exact hflag
  · intro l hmem
    have htr := (mem_sortOpportunities.mp hmem).2
    rw [hfields.1] at htr
    simp [qTruthy] at htr

/-- Two well-priced quotes whose buy amounts are far below the pair's
minimum: a spread is computable yet must be suppressed. -/
def c3wQuotes : List Quote :=
  [{ source := "a", price := some 1, buyAmountHuman := some 1 },
   { source := "b", price := some 2, buyAmountHuman := some 1 }]

/-- A pair demanding at least 100 tokens out. -/
def c3wPair : Pair := { name := "THIN", minBuyAmount := some 100 }

/-- The chain of the C3 witness. -/
def c3wChain : Chain := { id := 1 }

/-- Witness for **C3**: a spread was computable, yet the flagged result
carries no spread fields and never surfaces in an opportunities list. -/
theorem c3_liquidity_gate_witness :
    (computeSpread c3wQuotes).isSome = true
    ∧ (analyzePairResult c3wChain c3wPair 1 c3wQuotes).liquidity_flag.isSome = true
    ∧ (analyzePairResult c3wChain c3wPair 1 c3wQuotes).spread_percent = none
    ∧ analyzePairResult c3wChain c3wPair 1 c3wQuotes
        ∉ sortOpportunities [analyzePairResult c3wChain c3wPair 1 c3wQuotes] := by
  have h1 : ((1 : ℚ) != 0) = true := by norm_num
  have h2 : ((2 : ℚ) != 0) = true := by norm_num
  have e12 : ((1 : ℚ) == (2 : ℚ)) = false := by norm_num
  have e22 : ((2 : ℚ) == (2 : ℚ)) = true := by norm_num
  have e11 : ((1 : ℚ) == (1 : ℚ)) = true := by norm_num
  have e21 : ((2 : ℚ) == (1 : ℚ)) = false := by norm_num
  have hbest : bestBuy c3wQuotes = 1 := by
    norm_num [bestBuy, c3wQuotes, jsOrQ, List.max?, List.foldl, max_def]
  have h := c3_liquidity_gate c3wChain c3wPair 1 c3wQuotes 100 rfl (by norm_num)
    (by rw [hbest]; norm_num)
  refine ⟨?_, h.1, h.2.1, h.2.2.2.2 _⟩
  norm_num [computeSpread, validQuotes, validPrices, isValidQuote, c3wQuotes,
    List.max?, List.min?, List.foldl, List.find?, List.filterMap_cons,
    h1, h2, e11, e12, e21, e22, max_def, min_def]

/-- Three quotes: two positive prices and one negative price.  All three
pass the code's validity filter. -/
def c2Quotes : List Quote :=
  [{ source := "a", price := some 1 }, { source := "b", price := some 2 },
   { source := "c", price := some (-1) }]

/-- Counterexample to **C2** (claim: the spread is computed over the
finite *positive* prices, with `worst` the source of the minimum such
price): on `c2Quotes` exactly two quotes have a finite positive price
(1 and 2), so the claim predicts `spread_percent = (2−1)/1×100 = 100`
and `worst = "a"`; the code also admits the negative price and returns
`spread_percent = (2−(−1))/(−1)×100 = −300` with `worst = "c"`. -/
theorem c2_counterexample :
    computeSpread c2Quotes
      = some { spread_percent := -300, best := some "b", worst := some "c" }
    ∧ c2Quotes.countP positivePricePred = 2
    ∧ ((2 : ℚ) - 1) / 1 * 100 = 100
    ∧ Option.map SpreadResult.spread_percent (computeSpread c2Quotes) ≠ some 100
    ∧ Option.map SpreadResult.worst (computeSpread c2Quotes) ≠ some (some "a") := by
  have h1 : ((1 : ℚ) != 0) = true := by norm_num
  have h2 : ((2 : ℚ) != 0) = true := by norm_num
  have h3 : ((-1 : ℚ) != 0) = true := by norm_num
  have e12 : ((1 : ℚ) == (2 : ℚ)) = false := by norm_num
  have e22 : ((2 : ℚ) == (2 : ℚ)) = true := by norm_num
  have e32 : ((-1 : ℚ) == (2 : ℚ)) = false := by norm_num
  have e1m : ((1 : ℚ) == (-1 : ℚ)) = false := by norm_num
  have e2m : ((2 : ℚ) == (-1 : ℚ)) = false := by norm_num
  have e3m : ((-1 : ℚ) == (-1 : ℚ)) = true := by norm_num
  have hspread : computeSpread c2Quotes
      = some { spread_percent := -300, best := some "b", worst := some "c" } := by
    norm_num [computeSpread, validQuotes, validPrices, isValidQuote, c2Quotes,
      List.max?, List.min?, List.foldl, List.find?, List.filterMap_cons,
      h1, h2, h3, e12, e22, e32, e1m, e2m, e3m, max_def, min_def]
  refine ⟨hspread, ?_, by norm_num, ?_, ?_⟩
  · have p1 : (0 : ℚ) < 1 := by norm_num
    have p2 : (0 : ℚ) < 2 := by norm_num
    have p3 : ¬ ((0 : ℚ) < -1) := by norm_num
    simp [c2Quotes, positivePricePred, List.countP, List.countP.go, p1, p2, p3]
  · rw [hspread]
    intro hcontra
    have : (-300 : ℚ) = 100 := by
      simpa using hcontra
    norm_num at this
  · rw [hspread]
    intro hcontra
    simp at hcontra

/-- **C2 (amended)**: for every quote list in which at least two quotes
have a finite nonzero (truthy) price, `computeSpread` returns
`spread_percent = (max − min)/min × 100` over the qualifying (truthy,
finite) prices, with `best`/`worst` the source of the first quote in
provider-configuration (input) order carrying the maximum/minimum
qualifying price. -/
theorem c2_computeSpread (quotes : List Quote)
    (hq : 2 ≤ (validQuotes quotes).length) :
    ∃ s maxP minP,
      computeSpread quotes = some s
      ∧ (∀ p : ℚ, p ∈ validPrices quotes ↔ (p ≠ 0 ∧ ∃ q ∈ quotes, q.price = some p))
      ∧ maxP ∈ validPrices quotes ∧ minP ∈ validPrices quotes
      ∧ (∀ p ∈ validPrices quotes, p ≤ maxP)
      ∧ (∀ p ∈ validPrices quotes, minP ≤ p)
      ∧ s.spread_percent = (maxP - minP) / minP * 100
      ∧ s.best = (quotes.find? (fun q => q.price == some maxP)).map (fun q => q.source)
      ∧ s.worst = (quotes.find? (fun q => q.price == some minP)).map (fun q => q.source) := by
  have hlen : (validPrices quotes).length = (validQuotes quotes).length :=
    validPrices_length quotes
  have hne : validPrices quotes ≠ [] := by
    intro h
    rw [h] at hlen
    simp at hlen
    omega
  rcases exists_max? _ hne with ⟨maxP, hmax⟩
  rcases exists_min? _ hne with ⟨minP, hmin⟩
  have hmaxmem := max?_spec hmax
  have hminmem := min?_spec hmin
  have hmaxne : maxP ≠ 0 := (mem_validPrices.mp hmaxmem.1).1
  have hminne : minP ≠ 0 := (mem_validPrices.mp hminmem.1).1
  have hnl : ¬ ((validQuotes quotes).length < 2) := by omega
  have hsp : computeSpread quotes = some
      { spread_percent := (maxP - minP) / minP * 100,
        best := ((validQuotes quotes).find? (fun q => q.price == some maxP)).map
          (fun q => q.source),
        worst := ((validQuotes quotes).find? (fun q => q.price == some minP)).map
          (fun q => q.source) } := by
    unfold computeSpread
    simp only [hnl, if_false, hmax, hmin]
  refine ⟨_, maxP, minP, hsp, fun p => mem_validPrices, hmaxmem.1, hminmem.1,
    hmaxmem.2, hminmem.2, rfl, ?_, ?_⟩
  · show ((validQuotes quotes).find? (fun q => q.price == some maxP)).map (fun q => q.source)
        = (quotes.find? (fun q => q.price == some maxP)).map (fun q => q.source)
    rw [find?_validQuotes quotes maxP hmaxne]
  · show ((validQuotes quotes).find? (fun q => q.price == some minP)).map (fun q => q.source)
        = (quotes.find? (fun q => q.price == some minP)).map (fun q => q.source)
    rw [find?_validQuotes quotes minP hminne]

/-- The spec's worked example: quotes at `1.02` and `0.98`. -/
def c2wQuotes : List Quote :=
  [{ source := "x", price := some (102/100) }, { source := "y", price := some (98/100) }]

/-- Witness for the amended **C2**: on the spec's worked example the
spread is `(1.02 − 0.98)/0.98 × 100 = 200/49 ≈ 4.0816`, `best` the
higher-price provider and `worst` the lower-price one. -/
theorem c2_computeSpread_witness :
    computeSpread c2wQuotes
      = some { spread_percent := 200/49, best := some "x", worst := some "y" } := by
  have h1 : ((102/100 : ℚ) != 0) = true := by norm_num
  have h2 : ((98/100 : ℚ) != 0) = true := by norm_num
  have hq : 2 ≤ (validQuotes c2wQuotes).length := by
    simp [validQuotes, c2wQuotes, isValidQuote, h1, h2]
  obtain ⟨s, maxP, minP, hsp, hchar, hmaxmem, hminmem, hmaxub, hminlb, hval, hbest, hworst⟩ :=
    c2_computeSpread c2wQuotes hq
  have hpl : validPrices c2wQuotes = [102/100, 98/100] := by
    simp [validPrices, validQuotes, c2wQuotes, isValidQuote, List.filterMap_cons, h1, h2]
  have hmaxval : maxP = 102/100 := by
    rw [hpl] at hmaxmem hmaxub
    have hle := hmaxub (102/100) (by simp)
    rcases (by simpa using hmaxmem : maxP = 102/100 ∨ maxP = 98/100) with h | h
    · exact h
    · rw [h] at hle
      norm_num at hle
  have hminval : minP = 98/100 := by
    rw [hpl] at hminmem hminlb
    have hle := hminlb (98/100) (by simp)
    rcases (by simpa using hminmem : minP = 102/100 ∨ minP = 98/100) with h | h
    · rw [h] at hle
      norm_num at hle
    · exact h
  rw [hmaxval] at hbest
  rw [hminval] at hworst
  have hs1 : s.spread_percent = 200/49 := by
    rw [hval, hmaxval, hminval]
    norm_num
  have hs2 : s.best = some "x" := by
    rw [hbest]
    have e1 : ((102/100 : ℚ) == (102/100 : ℚ)) = true := by norm_num
    simp [c2wQuotes, List.find?, e1]
  have hs3 : s.worst = some "y" := by
    rw [hworst]
    have e1 : ((102/100 : ℚ) == (98/100 : ℚ)) = false := by norm_num
    have e2 : ((98/100 : ℚ) == (98/100 : ℚ)) = true := by norm_num
    simp [c2wQuotes, List.find?, e1, e2]
  rw [hsp]
  obtain ⟨sp, bs, ws⟩ := s
  simp only at hs1 hs2 hs3
  rw [hs1, hs2, hs3]

lemma sortOpportunities_sorted (l : List PairResult) :
    (sortOpportunities l).Pairwise
      (fun a b => b.spread_percent.getD 0 ≤ a.spread_percent.getD 0) := by
  have h := @List.sorted_mergeSort PairResult opportunityLe
    opportunityLe_trans opportunityLe_total (l.filter (fun r => qTruthy r.spread_percent))
  exact h.imp (fun hab => by simpa [opportunityLe] using hab)

lemma sortOpportunities_perm (l : List PairResult) :
    (sortOpportunities l).Perm (l.filter (fun r => qTruthy r.spread_percent)) :=
  List.mergeSort_perm _ _

lemma sortOpportunities_stable (l : List PairResult) (v : ℚ) :
    (sortOpportunities l).filter (fun r => r.spread_percent.getD 0 == v)
      = (l.filter (fun r => qTruthy r.spread_percent)).filter
          (fun r => r.spread_percent.getD 0 == v) := by
  have hpair : ((l.filter (fun r => qTruthy r.spread_percent)).filter
      (fun r => r.spread_percent.getD 0 == v)).Pairwise
      (fun a b => opportunityLe a b = true) := by
    apply List.pairwise_of_forall_mem_list
    intro a ha b hb
    have hav : a.spread_percent.getD 0 = v := beq_iff_eq.mp (List.mem_filter.mp ha).2
    have hbv : b.spread_percent.getD 0 = v := beq_iff_eq.mp (List.mem_filter.mp hb).2
    simp [opportunityLe, hav, hbv]
  have hsub : ((l.filter (fun r => qTruthy r.spread_percent)).filter
        (fun r => r.spread_percent.getD 0 == v)).Sublist (sortOpportunities l) :=
    List.sublist_mergeSort opportunityLe_trans opportunityLe_total hpair
      (List.filter_sublist _)
  have hsub2 : ((l.filter (fun r => qTruthy r.spread_percent)).filter
        (fun r => r.spread_percent.getD 0 == v)).Sublist
      ((sortOpportunities l).filter (fun r => r.spread_percent.getD 0 == v)) := by
    have h := hsub.filter (fun r => r.spread_percent.getD 0 == v)
    rwa [List.filter_filter,
      (by
        funext a
        exact Bool.and_self _ :
        (fun a : PairResult =>
            (a.spread_percent.getD 0 == v) && (a.spread_percent.getD 0 == v))
          = fun r : PairResult => r.spread_percent.getD 0 == v)] at h
  have hperm : ((sortOpportunities l).filter (fun r => r.spread_percent.getD 0 == v)).Perm
      ((l.filter (fun r => qTruthy r.spread_percent)).filter
        (fun r => r.spread_percent.getD 0 == v)) :=
    (sortOpportunities_perm l).filter _
  exact (hsub2.eq_of_length hperm.length_eq.symm).symm

/-- A pair result with an exactly-zero spread: two equal prices. -/
def c7Quotes : List Quote :=
  [{ source := "a", price := some 1 }, { source := "b", price := some 1 }]

/-- The pair of the C7 counterexample. -/
def c7Pair : Pair := { name := "FLAT" }

/-- The chain of the C7 counterexample. -/
def c7Chain : Chain := { id := 1 }

/-- Counterexample to **C7** (claim: `opportunities` is exactly the
subsequence of PairResults with a *defined* `spread_percent`): the
result of a pair with two equal prices has the defined spread `0`, yet
`sortOpportunities` filters on truthiness and drops it, so it is in no
opportunities list and is not counted in the global top. -/
theorem c7_counterexample :
    (analyzePairResult c7Chain c7Pair 1 c7Quotes).spread_percent = some 0
    ∧ sortOpportunities [analyzePairResult c7Chain c7Pair 1 c7Quotes] = [] := by
  have h1 : ((1 : ℚ) != 0) = true := by norm_num
  have e11 : ((1 : ℚ) == (1 : ℚ)) = true := by norm_num
  have hspread : computeSpread c7Quotes
      = some { spread_percent := 0, best := some "a", worst := some "a" } := by
    norm_num [computeSpread, validQuotes, validPrices, isValidQuote, c7Quotes,
      List.max?, List.min?, List.foldl, List.find?, List.filterMap_cons,
      h1, e11, max_def, min_def]
  have hflag : liquidityFlagFor c7Pair c7Quotes = none := by
    simp [liquidityFlagFor, c7Pair, qTruthy]
  have hr : (analyzePairResult c7Chain c7Pair 1 c7Quotes).spread_percent = some 0 := by
    simp [analyzePairResult, hspread, hflag]
  refine ⟨hr, ?_⟩
  have hq0 : qTruthy (analyzePairResult c7Chain c7Pair 1 c7Quotes).spread_percent = false := by
    rw [hr]
    simp [qTruthy]
  simp [sortOpportunities, List.filter, hq0]

/-- **C7 (amended)**: for every chain, the ChainReport's `opportunities`
list is exactly the subsequence of that chain's PairResults having a
truthy (defined and nonzero) `spread_percent`, sorted descending with
ties keeping original relative order; the global top list merges all
chains' opportunities, re-sorts descending, and has length
`min(20, total truthy-spread opportunities across all chains)`, each of
its entries coming from some chain's PairResults. -/
theorem c7_report_structure (crs : List (Chain × List PairResult)) :
    (∀ (chain : Chain) (pairResults : List PairResult),
      (buildChainReport chain pairResults).opportunities.Perm
          (pairResults.filter (fun r => qTruthy r.spread_percent))
      ∧ (buildChainReport chain pairResults).opportunities.Pairwise
          (fun a b => b.spread_percent.getD 0 ≤ a.spread_percent.getD 0)
      ∧ (∀ v : ℚ, (buildChainReport chain pairResults).opportunities.filter
            (fun r => r.spread_percent.getD 0 == v)
          = (pairResults.filter (fun r => qTruthy r.spread_percent)).filter
              (fun r => r.spread_percent.getD 0 == v)))
    ∧ (topOpportunities (crs.map fun cr => buildChainReport cr.1 cr.2)).length
        = min 20 ((crs.map fun cr =>
            (cr.2.filter (fun r => qTruthy r.spread_percent)).length).sum)
    ∧ (topOpportunities (crs.map fun cr => buildChainReport cr.1 cr.2)).Pairwise
        (fun a b => b.spread_percent.getD 0 ≤ a.spread_percent.getD 0)
    ∧ (∀ r ∈ topOpportunities (crs.map fun cr => buildChainReport cr.1 cr.2),
        ∃ cr ∈ crs, r ∈ cr.2 ∧ qTruthy r.spread_percent = true) := by
  have hall : ∀ r ∈ (crs.map fun cr => buildChainReport cr.1 cr.2).flatMap
      (fun c => c.opportunities), qTruthy r.spread_percent = true := by
    intro r hr
    rw [List.mem_flatMap] at hr
    rcases hr with ⟨c, hc, hrc⟩
    rw [List.mem_map] at hc
    rcases hc with ⟨cr, _, rfl⟩
    have hin : r ∈ sortOpportunities cr.2 := by simpa [buildChainReport] using hrc
    exact (mem_sortOpportunities.mp hin).2
  have hfl : ((crs.map fun cr => buildChainReport cr.1 cr.2).flatMap
      (fun c => c.opportunities)).filter (fun r => qTruthy r.spread_percent)
      = (crs.map fun cr => buildChainReport cr.1 cr.2).flatMap (fun c => c.opportunities) :=
    List.filter_eq_self.mpr hall
  refine ⟨?_, ?_, ?_, ?_⟩
  · intro chain pairResults
    exact ⟨sortOpportunities_perm pairResults, sortOpportunities_sorted pairResults,
      fun v => sortOpportunities_stable pairResults v⟩
  · rw [topOpportunities, List.length_take]
    have h1 : (sortOpportunities ((crs.map fun cr => buildChainReport cr.1 cr.2).flatMap
        (fun c => c.opportunities))).length
        = ((crs.map fun cr => buildChainReport cr.1 cr.2).flatMap
            (fun c => c.opportunities)).length := by
      rw [(sortOpportunities_perm _).length_eq, hfl]
    rw [h1, List.length_flatMap, List.map_map]
    congr 1
    refine congrArg List.sum (List.map_congr_left ?_)
    intro cr _
    show (buildChainReport cr.1 cr.2).opportunities.length = _
    simp only [buildChainReport]
    exact (sortOpportunities_perm cr.2).length_eq
  · exact List.Pairwise.sublist (List.take_sublist 20 _) (sortOpportunities_sorted _)
  · intro r hr
    have hr2 : r ∈ sortOpportunities ((crs.map fun cr => buildChainReport cr.1 cr.2).flatMap
        (fun c => c.opportunities)) := (List.take_sublist 20 _).subset hr
    rcases mem_sortOpportunities.mp hr2 with ⟨hmemfl, htr⟩
    rw [List.mem_flatMap] at hmemfl
    rcases hmemfl with ⟨c, hc, hrc⟩
    rw [List.mem_map] at hc
    rcases hc with ⟨cr, hcr, rfl⟩
    have hin : r ∈ sortOpportunities cr.2 := by simpa [buildChainReport] using hrc
    exact ⟨cr, hcr, (mem_sortOpportunities.mp hin).1, htr⟩

/-- The chain of the C7 witness. -/
def c7wChain : Chain := { id := 1, name := "Ethereum" }

/-- A pair result with no spread (excluded from ranking). -/
def c7wR0 : PairResult :=
  { pair := "flat", chainId := 1, chain := "Ethereum", sellAmount := 1,
    sellToken := "A", buyToken := "B", quotes := [], minBuyAmount := none }

/-- A pair result with a 2% spread (ranked). -/
def c7wR2 : PairResult :=
  { pair := "hot", chainId := 1, chain := "Ethereum", sellAmount := 1,
    sellToken := "A", buyToken := "B", quotes := [], minBuyAmount := none,
    spread_percent := some 2 }

/-- One chain whose PairResults are the two above. -/
def c7wCrs : List (Chain × List PairResult) := [(c7wChain, [c7wR0, c7wR2])]

/-- Witness for the amended **C7**: one of two pair results qualifies,
the top list has length `min 20 1 = 1` and its entry has a truthy
spread. -/
theorem c7_report_structure_witness :
    (topOpportunities (c7wCrs.map fun cr => buildChainReport cr.1 cr.2)).length = min 20 1
    ∧ qTruthy c7wR2.spread_percent = true := by
  have h := c7_report_structure c7wCrs
  have h2 : ((2 : ℚ) != 0) = true := by norm_num
  constructor
  · rw [h.2.1]
    simp [c7wCrs, c7wR0, c7wR2, qTruthy, List.filter, h2]
  · have htop : c7wR2 ∈ topOpportunities (c7wCrs.map fun cr => buildChainReport cr.1 cr.2) := by
      simp [topOpportunities, sortOpportunities, buildChainReport, c7wCrs, c7wR0, c7wR2,
        List.filter, qTruthy, h2, List.mergeSort_singleton]
    rcases h.2.2.2 c7wR2 htop with ⟨cr, hcr, hmem, htr⟩
    exact htr

end Arb
